import Mathlib

/-!
Verification development for the YouTube transcript summarizer (src/app.py).

The program is embedded shallowly: Python exceptions become an explicit
`PyResult`, the two external services (transcript retrieval and text
generation) become records of Lean functions supplied by the caller, and the
stateful Streamlit flow becomes a pure function that also returns the trace
of outbound service calls and the download artifacts it offers.
-/

/-- Python exception values that the program can raise or catch. -/
inductive PyExn where
  | transcriptsDisabled
  | noTranscriptFound
  | keyError (key : String)
  | indexError
  | valueError (msg : String)
  | generic (msg : String)
deriving DecidableEq

/-- Rendering of an exception as by Python str(e).  Only the `generic`
case is observable in a message the program builds; for KeyError the quote
characters Python would add around the key are not reproduced. -/
def PyExn.str : PyExn → String
  | .transcriptsDisabled => "TranscriptsDisabled"
  | .noTranscriptFound => "NoTranscriptFound"
  | .keyError k => "KeyError: " ++ k
  | .indexError => "list index out of range"
  | .valueError m => m
  | .generic m => m

/-- Outcome of running a piece of Python code: a value, or a raised exception. -/
inductive PyResult (α : Type) where
  | ok (val : α)
  | exn (e : PyExn)
deriving DecidableEq

def PyResult.map {α β : Type} (f : α → β) : PyResult α → PyResult β
  | .ok a => .ok (f a)
  | .exn e => .exn e

/-- Characters of `cs` before the first character that is in `stops`,
paired with the remainder (which begins with the stop character, when one
occurs).  Models CPython urllib's search for a delimiter. -/
def charsUntil (stops : List Char) : List Char → List Char × List Char
  | [] => ([], [])
  | c :: cs =>
    if c ∈ stops then ([], c :: cs)
    else
      let p := charsUntil stops cs
      (c :: p.1, p.2)

/-- Split at the first occurrence of `sep` (the separator removed);
`none` when `sep` does not occur.  Models Python str.split(sep, 1). -/
def splitAtCharFirst (sep : Char) : List Char → Option (List Char × List Char)
  | [] => none
  | c :: cs =>
    if c = sep then some ([], cs)
    else (splitAtCharFirst sep cs).map (fun p => (c :: p.1, p.2))

/-- The characters after the last occurrence of `sep` (all of `cs` when
`sep` does not occur): Python str.rpartition(sep)[2]. -/
def afterLastOcc (sep : Char) (cs : List Char) : List Char :=
  ((charsUntil [sep] cs.reverse).1).reverse

def lowerChars (cs : List Char) : List Char := cs.map Char.toLower

/-- CPython scheme_chars: ASCII letters, digits, and the three marks. -/
def isSchemeChar (c : Char) : Bool :=
  c.isAlpha || c.isDigit || c == '+' || c == '-' || c == '.'

/-- CPython urlsplit removes tab, CR and LF anywhere in the URL before parsing. -/
def stripUnsafeUrlChars (cs : List Char) : List Char :=
  cs.filter (fun c => !(c == '\t' || c == '\r' || c == '\n'))

/-- CPython urlsplit first strips leading WHATWG C0-control-or-space
characters (code points up to 0x20). -/
def lstripControlOrSpace (cs : List Char) : List Char :=
  cs.dropWhile (fun c => c.val ≤ 32)

/-- Scheme detection of CPython urlsplit: the text before the first colon is
the scheme when it is nonempty, starts with an ASCII letter and consists of
scheme characters; it is lowercased, otherwise no scheme is split off. -/
def splitScheme (cs : List Char) : String × List Char :=
  match splitAtCharFirst ':' cs with
  | none => ("", cs)
  | some p =>
    match p.1 with
    | [] => ("", cs)
    | c0 :: _ =>
      if c0.isAlpha && p.1.all isSchemeChar then (⟨lowerChars p.1⟩, p.2)
      else ("", cs)

/-- After the scheme: when the rest starts with two slashes, the netloc runs
to the next slash, question mark or hash. -/
def splitNetloc (cs : List Char) : List Char × List Char :=
  match cs with
  | '/' :: '/' :: rest => charsUntil ['/', '?', '#'] rest
  | _ => ([], cs)

/-- The characters strictly before the last occurrence of `sep` (meaningful
only when `sep` occurs): Python str.rfind support for _splitparams. -/
def beforeLastOcc (sep : Char) (cs : List Char) : List Char :=
  (((charsUntil [sep] cs.reverse).2).drop 1).reverse

/-- The schemes for which CPython urlparse splits a params component. -/
def uses_params : List String :=
  ["", "ftp", "hdl", "prospero", "http", "imap", "https", "imaps", "rtsp",
   "rtspu", "sip", "sips", "mms", "sftp", "tel"]

/-- CPython _splitparams on the path: the params are what follows the first
semicolon at or after the last slash (or the first semicolon anywhere when
the path has no slash); no split when that search finds none. -/
def splitparams (cs : List Char) : List Char × List Char :=
  if '/' ∈ cs then
    match splitAtCharFirst ';' (afterLastOcc '/' cs) with
    | none => (cs, [])
    | some p => (beforeLastOcc '/' cs ++ '/' :: p.1, p.2)
  else
    match splitAtCharFirst ';' cs with
    | none => (cs, [])
    | some p => (p.1, p.2)

structure UrlSplitResult where
  scheme : String
  netloc : String
  path : String
  params : String
  query : String
  fragment : String
deriving DecidableEq

/-- Model of urllib.parse.urlparse restricted to what the program touches:
scheme, netloc, path (with any params component split off as CPython
urlparse does), params, query, fragment and the hostname attribute.  As in
CPython, a netloc holding a square bracket without its partner raises
ValueError("Invalid IPv6 URL").  Two raising checks on inputs no theorem of
this development covers are omitted: the validation of a bracketed host
literal (CPython raises when the text inside matched brackets is not an
IPv6/IPvFuture literal) and the NFKC normalization check of a non-ASCII
netloc; the universally quantified theorem below therefore hypothesizes a
bracket-free, all-ASCII URL. -/
def urlparse (url : String) : PyResult UrlSplitResult :=
  let cs := stripUnsafeUrlChars (lstripControlOrSpace url.data)
  let sp := splitScheme cs
  let nl := splitNetloc sp.2
  if ('[' ∈ nl.1 ∧ ']' ∉ nl.1) ∨ (']' ∈ nl.1 ∧ '[' ∉ nl.1) then
    .exn (.valueError "Invalid IPv6 URL")
  else
    let fr :=
      match splitAtCharFirst '#' nl.2 with
      | some p => p
      | none => (nl.2, [])
    let qy :=
      match splitAtCharFirst '?' fr.1 with
      | some p => p
      | none => (fr.1, [])
    let pp :=
      if sp.1 ∈ uses_params ∧ ';' ∈ qy.1 then splitparams qy.1
      else (qy.1, [])
    .ok ⟨sp.1, ⟨nl.1⟩, ⟨pp.1⟩, ⟨pp.2⟩, ⟨qy.2⟩, ⟨fr.2⟩⟩

/-- The hostname attribute: the netloc after any userinfo; a bracketed host
is the text after the first opening bracket up to the closing bracket,
otherwise the host stops at the port colon; lowercased, `none` when empty. -/
def UrlSplitResult.hostname (r : UrlSplitResult) : Option String :=
  let hostinfo := afterLastOcc '@' r.netloc.data
  match splitAtCharFirst '[' hostinfo with
  | some p =>
    let host := (charsUntil [']'] p.2).1
    if host = [] then none else some ⟨lowerChars host⟩
  | none =>
    let host := (charsUntil [':'] hostinfo).1
    if host = [] then none else some ⟨lowerChars host⟩

/-- Python str.split(sep) for a one-character separator: keeps empty pieces,
never returns an empty list. -/
def pySplitAux (sep : Char) : List Char → List Char → List String
  | [], acc => [⟨acc.reverse⟩]
  | c :: cs, acc =>
    if c = sep then (⟨acc.reverse⟩ : String) :: pySplitAux sep cs []
    else pySplitAux sep cs (c :: acc)

def pySplitOn (s : String) (sep : Char) : List String := pySplitAux sep s.data []

/-- Python urllib unquote_plus turns plus signs into spaces (percent-escape
decoding is omitted: no input of this development contains an escape). -/
def plusToSpace (cs : List Char) : List Char :=
  cs.map (fun c => if c = '+' then ' ' else c)

/-- Model of urllib.parse.parse_qs with default arguments, as the ordered
list of name/value pairs it keeps: fields split at ampersands, empty fields
and fields without an equals sign or with an empty value dropped. -/
def parse_qs_pairs (query : String) : List (String × String) :=
  (pySplitOn query '&').filterMap (fun field =>
    if field = "" then none
    else
      match splitAtCharFirst '=' field.data with
      | none => none
      | some nv =>
        if nv.2 = [] then none
        else some (⟨plusToSpace nv.1⟩, ⟨plusToSpace nv.2⟩))

/-- parse_qs(query)[key][0]: the first value kept for `key`; `none` models
the KeyError case (key absent from the dict). -/
def parse_qs_first (query key : String) : Option String :=
  ((parse_qs_pairs query).find? (fun p => p.1 == key)).map (fun p => p.2)

/-- Python list indexing, which raises IndexError out of range. -/
def pyListGet {α : Type} (l : List α) (i : Nat) : PyResult α :=
  match l.get? i with
  | some a => .ok a
  | none => .exn .indexError

/-- Embedding of get_video_id (src/app.py lines 42-54).  Returns
`ok (some id)` for a recognized URL, `ok none` for the Python `return None`,
and `exn` when the Python code raises: the missing `v` KeyError, or a
ValueError propagating out of the `query = urlparse(url)` call. -/
def get_video_id (url : String) : PyResult (Option String) :=
  match urlparse url with
  | .exn e => .exn e
  | .ok query =>
  if query.hostname = some "youtu.be" then
    .ok (some ⟨query.path.data.drop 1⟩)
  else if query.hostname = some "www.youtube.com" ∨ query.hostname = some "youtube.com" then
    if query.path = "/watch" then
      match parse_qs_first query.query "v" with
      | some v => .ok (some v)
      | none => .exn (.keyError "v")
    else if query.path.data.take 7 = "/embed/".data then
      (pyListGet (pySplitOn query.path '/') 2).map some
    else if query.path.data.take 3 = "/v/".data then
      (pyListGet (pySplitOn query.path '/') 2).map some
    else .ok none
  else .ok none

/-- The first path segment: for a path "/a/b" this is "a".  Follows the
words of spec section 4.1 ("identifier = first path segment"). -/
def firstPathSegment (path : String) : String :=
  ((pySplitOn path '/').drop 1).headD ""

/-- The path segment directly after a one-segment route marker: for a path
"/embed/a/b" this is "a".  Follows the words of spec section 4.1
("identifier = the path segment following that prefix"). -/
def segmentAfterRouteMarker (path : String) : String :=
  ((pySplitOn path '/').drop 2).headD ""

/-- The reference case analysis of spec section 4.1, as the spec words it:
short-link host takes the first path segment; the canonical hosts take the
`v` query value on the watch route (failing, without an exception, when it
is absent) or the segment after the embed / short-video route markers;
everything else — including an unparseable URL, since the spec requires
never raising — fails with no identifier. -/
def specGetVideoId (url : String) : Option String :=
  match urlparse url with
  | .exn _ => none
  | .ok query =>
  if query.hostname = some "youtu.be" then
    some (firstPathSegment query.path)
  else if query.hostname = some "www.youtube.com" ∨ query.hostname = some "youtube.com" then
    if query.path = "/watch" then
      parse_qs_first query.query "v"
    else if query.path.data.take 7 = "/embed/".data then
      some (segmentAfterRouteMarker query.path)
    else if query.path.data.take 3 = "/v/".data then
      some (segmentAfterRouteMarker query.path)
    else none
  else none

/-- The spec case analysis amended to what the code does at the points
where they differ: the short-link host yields the whole path with its
leading slash removed (not only the first segment); a watch route whose
`v` parameter is absent raises a key lookup error instead of returning no
identifier; and a URL on which urlparse raises propagates that exception
instead of failing silently. -/
def specGetVideoIdAmended (url : String) : PyResult (Option String) :=
  match urlparse url with
  | .exn e => .exn e
  | .ok query =>
  if query.hostname = some "youtu.be" then
    .ok (some ⟨query.path.data.drop 1⟩)
  else if query.hostname = some "www.youtube.com" ∨ query.hostname = some "youtube.com" then
    if query.path = "/watch" then
      match parse_qs_first query.query "v" with
      | some v => .ok (some v)
      | none => .exn (.keyError "v")
    else if query.path.data.take 7 = "/embed/".data then
      .ok (some (segmentAfterRouteMarker query.path))
    else if query.path.data.take 3 = "/v/".data then
      .ok (some (segmentAfterRouteMarker query.path))
    else .ok none
  else .ok none

/-! ## Transcript retriever -/

/-- One transcript segment as the transcript service returns it: a dict
with text, start and duration; only the text is consumed. -/
structure TranscriptSegment where
  text : String
  start : ℚ
  duration : ℚ
deriving DecidableEq

/-- The two operations of the transcript service boundary.  Available
transcripts are modelled as the list of their language codes. -/
structure TranscriptService where
  list_transcripts : String → PyResult (List String)
  get_transcript : String → Option (List String) → PyResult (List TranscriptSegment)

/-- One outbound call to the transcript service, as recorded in the trace. -/
inductive ServiceCall where
  | listTranscripts (video_id : String)
  | getTranscript (video_id : String) (languages : Option (List String))
deriving DecidableEq

def ServiceCall.videoId : ServiceCall → String
  | .listTranscripts v => v
  | .getTranscript v _ => v

/-- The classified failures the retriever surfaces (each as a Streamlit
message plus a Python `return None`). -/
inductive RetrieverFailure where
  | invalidURL
  | noTranscriptsAvailable
  | transcriptsDisabled
  | noTranscriptFound
  | serviceError (msg : String)
deriving DecidableEq

inductive RetrieverResult where
  | success (text : String)
  | failure (f : RetrieverFailure)
deriving DecidableEq

/-- The except clauses of extract_transcript_details, in source order:
TranscriptsDisabled, then NoTranscriptFound, then the generic handler. -/
def classifyRetrieverExn : PyExn → RetrieverFailure
  | .transcriptsDisabled => .transcriptsDisabled
  | .noTranscriptFound => .noTranscriptFound
  | e => .serviceError ("⚠️ Error: " ++ e.str)

/-- Python " ".join of the text fields of the segments. -/
def joinSegmentTexts (segs : List TranscriptSegment) : String :=
  String.intercalate " " (segs.map TranscriptSegment.text)

/-- Embedding of extract_transcript_details (src/app.py lines 56-85),
paired with the trace of transcript-service calls it issues.  The inner
bare `except:` around the English fetch triggers the single default-language
fallback; every other exception reaches the outer except clauses. -/
def extract_transcript_details (ts : TranscriptService) (youtube_video_url : String) :
    RetrieverResult × List ServiceCall :=
  match get_video_id youtube_video_url with
  | .exn e => (.failure (classifyRetrieverExn e), [])
  | .ok none => (.failure .invalidURL, [])
  | .ok (some video_id) =>
    if video_id = "" then (.failure .invalidURL, [])
    else
      match ts.list_transcripts video_id with
      | .exn e => (.failure (classifyRetrieverExn e), [.listTranscripts video_id])
      | .ok transcript_list =>
        if transcript_list = [] then
          (.failure .noTranscriptsAvailable, [.listTranscripts video_id])
        else
          match ts.get_transcript video_id (some ["en"]) with
          | .ok transcript =>
            (.success (joinSegmentTexts transcript),
             [.listTranscripts video_id, .getTranscript video_id (some ["en"])])
          | .exn _ =>
            match ts.get_transcript video_id none with
            | .ok transcript =>
              (.success (joinSegmentTexts transcript),
               [.listTranscripts video_id, .getTranscript video_id (some ["en"]),
                .getTranscript video_id none])
            | .exn e =>
              (.failure (classifyRetrieverExn e),
               [.listTranscripts video_id, .getTranscript video_id (some ["en"]),
                .getTranscript video_id none])

/-! ## Summary generator -/

/-- The fixed sampling configuration built at src/app.py lines 123-128. -/
structure GenerationConfig where
  temperature : ℚ
  top_p : ℚ
  top_k : ℕ
  max_output_tokens : ℕ
deriving DecidableEq

/-- genai.types.GenerationConfig(temperature=0.3, top_p=0.95, top_k=40,
max_output_tokens=2048). -/
def generation_config : GenerationConfig := ⟨3/10, 95/100, 40, 2048⟩

/-- The safety_settings dict of src/app.py lines 112-117, as ordered pairs. -/
def safety_settings : List (String × String) :=
  [("HARM_CATEGORY_HARASSMENT", "BLOCK_ONLY_HIGH"),
   ("HARM_CATEGORY_HATE_SPEECH", "BLOCK_ONLY_HIGH"),
   ("HARM_CATEGORY_SEXUALLY_EXPLICIT", "BLOCK_ONLY_HIGH"),
   ("HARM_CATEGORY_DANGEROUS_CONTENT", "BLOCK_ONLY_HIGH")]

/-- The candidate model names of src/app.py lines 91-95, in list order. -/
def model_names_to_try : List String :=
  ["gemini-1.5-pro-latest", "gemini-pro", "models/gemini-pro"]

/-- PROMPT_TEMPLATE of src/app.py lines 25-40 up to its single
format slot. -/
def PROMPT_TEMPLATE_BEFORE_SLOT : String :=
  "\nPlease analyze the following YouTube video transcript and provide a concise summary with:\n1. Main topic and purpose (1-2 sentences)\n2. 3-5 key points (as bullet points)\n3. Any important facts, figures, or statistics mentioned\n4. Overall conclusions or takeaways\n\nGuidelines:\n- Keep summary under 250 words\n- Use neutral, academic tone\n- Focus on factual content only\n- Format with clear section headings\n\nTranscript:\n"

/-- PROMPT_TEMPLATE.format(transcript=transcript_text): the template has one
slot followed by a final newline. -/
def format_prompt (transcript_text : String) : String :=
  PROMPT_TEMPLATE_BEFORE_SLOT ++ transcript_text ++ "\n"

/-- One generation request as issued at src/app.py lines 120-129. -/
structure GenCall where
  model : String
  prompt : String
  safety : List (String × String)
  config : GenerationConfig
deriving DecidableEq

/-- The generation service boundary: constructing a model by name (which may
reject the name), and generating content from a full request. -/
structure GenService where
  construct_model : String → PyResult String
  generate_content : GenCall → PyResult String

inductive GenResult where
  | success (text : String)
  | failure (message : String)
deriving DecidableEq

/-- The for-loop of src/app.py lines 100-106: try each candidate name,
break on the first the service accepts, remember the last error. -/
def try_model_names (gs : GenService) : List String → Option PyExn → Option String × Option PyExn
  | [], last_error => (none, last_error)
  | n :: rest, last_error =>
    match gs.construct_model n with
    | .ok m => (some m, last_error)
    | .exn e => try_model_names gs rest (some e)

/-- Python str of the Optional last_error as interpolated into the raised
message (str(None) = "None"). -/
def pyStrOfOptionExn : Option PyExn → String
  | none => "None"
  | some e => e.str

/-- Embedding of generate_gemini_content (src/app.py lines 87-135), paired
with the trace of generation requests issued.  When no candidate model
loads, the code raises and the outer handler surfaces the message; when the
request itself raises, the handler surfaces that message; either way the
function returns Python None, modelled as `.failure`. -/
def generate_gemini_content (gs : GenService) (transcript_text : String) :
    GenResult × List GenCall :=
  match try_model_names gs model_names_to_try none with
  | (none, last_error) =>
    (.failure ("🚨 Generation failed: Could not load any model. Last error: " ++
       pyStrOfOptionExn last_error), [])
  | (some m, _) =>
    let call : GenCall := ⟨m, format_prompt transcript_text, safety_settings, generation_config⟩
    match gs.generate_content call with
    | .ok text => (.success text, [call])
    | .exn e => (.failure ("🚨 Generation failed: " ++ e.str), [call])

/-! ## Interaction shell -/

/-- One st.download_button artifact. -/
structure DownloadArtifact where
  label : String
  data : String
  file_name : String
  mime : String
deriving DecidableEq

/-- Everything observable about one run of the trigger block. -/
structure ShellRun where
  warned_empty_url : Bool
  transcript : Option String
  summary_shown : Option String
  ts_calls : List ServiceCall
  gen_calls : List GenCall
  downloads : List DownloadArtifact
deriving DecidableEq

/-- Embedding of the module-level Streamlit trigger block
(src/app.py lines 159-196), run once per press of the Generate Summary
button.  The slider values max_length and temperature are read in the
sidebar (lines 150-151) but, as in the source, never consulted. -/
def run_trigger_block (ts : TranscriptService) (gs : GenService)
    (max_length : ℕ) (temperature : ℚ) (youtube_link : String) : ShellRun :=
  if youtube_link = "" then
    ⟨true, none, none, [], [], []⟩
  else
    let tr := extract_transcript_details ts youtube_link
    match tr.1 with
    | .failure _ => ⟨false, none, none, tr.2, [], []⟩
    | .success t =>
      if t = "" then ⟨false, some t, none, tr.2, [], []⟩
      else
        let gr := generate_gemini_content gs t
        match gr.1 with
        | .failure _ => ⟨false, some t, none, tr.2, gr.2, []⟩
        | .success s =>
          if s = "" then ⟨false, some t, none, tr.2, gr.2, []⟩
          else
            ⟨false, some t, some s, tr.2, gr.2,
             [⟨"Download as TXT", s, "youtube_summary.txt", "text/plain"⟩,
              ⟨"Download as MD", "# YouTube Summary\n\n" ++ s, "youtube_summary.md",
               "text/markdown"⟩]⟩

/-! ## Stub services used by the concrete witnesses -/

/-- A transcript service whose English fetch fails and whose default fetch
returns two segments. -/
def fallbackStubService : TranscriptService :=
  ⟨fun _ => .ok ["en"],
   fun _ langs =>
     match langs with
     | some _ => .exn .noTranscriptFound
     | none => .ok [⟨"Hello", 0, 0⟩, ⟨"world", 0, 0⟩]⟩

/-- A transcript service answering every fetch with two segments. -/
def englishStubService : TranscriptService :=
  ⟨fun _ => .ok ["en"], fun _ _ => .ok [⟨"Hello", 0, 0⟩, ⟨"world", 0, 0⟩]⟩

/-- A transcript service reporting that no transcripts are available. -/
def emptyListStubService : TranscriptService :=
  ⟨fun _ => .ok [], fun _ _ => .exn (.generic "unused")⟩

/-- A transcript service returning segments with texts A and B. -/
def abStubService : TranscriptService :=
  ⟨fun _ => .ok ["en"], fun _ _ => .ok [⟨"A", 0, 0⟩, ⟨"B", 0, 0⟩]⟩

/-- A generation service accepting every model name and echoing the prompt. -/
def echoStubGenService : GenService :=
  ⟨fun n => .ok n, fun call => .ok call.prompt⟩

/-- A generation service rejecting every model name. -/
def rejectAllGenService : GenService :=
  ⟨fun _ => .exn (.generic "model unavailable"), fun _ => .ok "unused"⟩

/-! ## Helper lemmas -/

lemma pySplitAux_cons (sep : Char) (cs acc : List Char) :
    ∃ s t, pySplitAux sep cs acc = s :: t := by
  induction cs generalizing acc with
  | nil => exact ⟨_, _, rfl⟩
  | cons c cs ih =>
    by_cases h : c = sep
    · exact ⟨_, _, by rw [pySplitAux, if_pos h]⟩
    · obtain ⟨s, t, hst⟩ := ih (c :: acc)
      exact ⟨s, t, by rw [pySplitAux, if_neg h, hst]⟩

lemma pySplitAux_embed (rest : List Char) :
    pySplitAux '/' (['/', 'e', 'm', 'b', 'e', 'd', '/'] ++ rest) [] =
      "" :: "embed" :: pySplitAux '/' rest [] := rfl

lemma pySplitAux_vroute (rest : List Char) :
    pySplitAux '/' (['/', 'v', '/'] ++ rest) [] =
      "" :: "v" :: pySplitAux '/' rest [] := rfl

lemma pySplitOn_embed_shape (p : String) (h : p.data.take 7 = "/embed/".data) :
    ∃ s t, pySplitOn p '/' = "" :: "embed" :: s :: t := by
  obtain ⟨s, t, hst⟩ := pySplitAux_cons '/' (p.data.drop 7) []
  have hp : p.data = ['/', 'e', 'm', 'b', 'e', 'd', '/'] ++ p.data.drop 7 := by
    conv_lhs => rw [← List.take_append_drop 7 p.data, h]
  refine ⟨s, t, ?_⟩
  unfold pySplitOn
  rw [hp, pySplitAux_embed, hst]

lemma pySplitOn_vroute_shape (p : String) (h : p.data.take 3 = "/v/".data) :
    ∃ s t, pySplitOn p '/' = "" :: "v" :: s :: t := by
  obtain ⟨s, t, hst⟩ := pySplitAux_cons '/' (p.data.drop 3) []
  have hp : p.data = ['/', 'v', '/'] ++ p.data.drop 3 := by
    conv_lhs => rw [← List.take_append_drop 3 p.data, h]
  refine ⟨s, t, ?_⟩
  unfold pySplitOn
  rw [hp, pySplitAux_vroute, hst]

lemma embed_branch_eq (p : String) (h : p.data.take 7 = "/embed/".data) :
    (pyListGet (pySplitOn p '/') 2).map some =
      PyResult.ok (some (segmentAfterRouteMarker p)) := by
  obtain ⟨s, t, hst⟩ := pySplitOn_embed_shape p h
  unfold pyListGet segmentAfterRouteMarker
  rw [hst]
  rfl

lemma vroute_branch_eq (p : String) (h : p.data.take 3 = "/v/".data) :
    (pyListGet (pySplitOn p '/') 2).map some =
      PyResult.ok (some (segmentAfterRouteMarker p)) := by
  obtain ⟨s, t, hst⟩ := pySplitOn_vroute_shape p h
  unfold pyListGet segmentAfterRouteMarker
  rw [hst]
  rfl

/-- Every generation request generate_gemini_content issues carries the
hardcoded sampling configuration and safety settings. -/
lemma generate_calls_all_fixed (gs : GenService) (t : String) :
    ∀ c ∈ (generate_gemini_content gs t).2,
      c.config = generation_config ∧ c.safety = safety_settings := by
  unfold generate_gemini_content
  rcases htr : try_model_names gs model_names_to_try none with ⟨m?, last⟩
  cases m? with
  | none => simp
  | some m =>
    cases hg : gs.generate_content ⟨m, format_prompt t, safety_settings, generation_config⟩ with
    | ok text => simp [hg]
    | exn e => simp [hg]

/-- The trigger block either issues no generation request or exactly the
requests of one generate_gemini_content run. -/
lemma run_gen_calls_shape (ts : TranscriptService) (gs : GenService)
    (ml : ℕ) (tp : ℚ) (link : String) :
    (run_trigger_block ts gs ml tp link).gen_calls = [] ∨
    ∃ t, (run_trigger_block ts gs ml tp link).gen_calls = (generate_gemini_content gs t).2 := by
  unfold run_trigger_block
  by_cases hl : link = ""
  · simp [hl]
  · rw [if_neg hl]
    cases hx : (extract_transcript_details ts link).1 with
    | failure f => simp [hx]
    | success t =>
      by_cases ht : t = ""
      · simp [hx, ht]
      · right
        refine ⟨t, ?_⟩
        simp only [hx, if_neg ht]
        cases hg : (generate_gemini_content gs t).1 with
        | failure m => simp [hg]
        | success s =>
          by_cases hs : s = ""
          · simp [hg, hs]
          · simp [hg, hs]

/-! ## Claim theorems -/

/-- A netloc with a mismatched square bracket makes urlparse, and therefore
get_video_id, raise ValueError — a third divergence from the spec's
no-exception contract, outside the bracket-free domain of the amended
theorem below. -/
theorem get_video_id_mismatched_bracket_raises :
    get_video_id "https://[a/" = PyResult.exn (PyExn.valueError "Invalid IPv6 URL") := rfl

/-- C1 (amended): for every all-ASCII URL string containing no square
bracket (the domain on which this embedding of urlparse agrees with CPython
character for character; brackets can make the real urlparse raise
ValueError, a third divergence acknowledged by the preceding theorem),
get_video_id equals the amended reference case analysis — short-link host:
the whole path after the leading slash; canonical host: the `v` query value
on the watch route, raising a key lookup error when absent, and the segment
after the embed / short-video route markers; every other host/path
combination yields no identifier. -/
theorem get_video_id_matches_amended_spec (url : String)
    (hascii : ∀ ch ∈ url.data, ch.val < 128)
    (hlbr : ('[' : Char) ∉ url.data) (hrbr : (']' : Char) ∉ url.data) :
    get_video_id url = specGetVideoIdAmended url := by
  unfold get_video_id specGetVideoIdAmended
  cases hp : urlparse url with
  | exn e => rfl
  | ok query =>
    dsimp only
    split_ifs <;>
      first
        | rfl
        | exact embed_branch_eq _ (by assumption)
        | exact vroute_branch_eq _ (by assumption)

/-- C1 witness: the amended equality evaluated at a concrete bracket-free
ASCII URL, where both sides yield the whole remaining path. -/
theorem get_video_id_matches_amended_spec_witness :
    get_video_id "https://youtu.be/abc/def" =
      specGetVideoIdAmended "https://youtu.be/abc/def" ∧
    specGetVideoIdAmended "https://youtu.be/abc/def" = PyResult.ok (some "abc/def") :=
  ⟨get_video_id_matches_amended_spec "https://youtu.be/abc/def"
     (by decide) (by decide) (by decide), rfl⟩

/-- C1 counterexample: on the short-link URL https://youtu.be/abc/def the
code returns the whole remaining path "abc/def" while the reference case
analysis of the spec returns the first path segment "abc", so the claimed
equality fails at this input. -/
theorem c1_counterexample_shortlink_two_segments :
    get_video_id "https://youtu.be/abc/def" = PyResult.ok (some "abc/def") ∧
    specGetVideoId "https://youtu.be/abc/def" = some "abc" ∧
    get_video_id "https://youtu.be/abc/def" ≠
      PyResult.ok (specGetVideoId "https://youtu.be/abc/def") :=
  ⟨rfl, rfl, by decide⟩

/-- C2: a canonical watch-page URL without a `v` query parameter makes
get_video_id raise a KeyError for "v" instead of returning an explicit
failure result, contradicting the spec sentence that extraction must not
raise and must fail when `v` is absent. -/
theorem get_video_id_watch_without_v_raises :
    get_video_id "https://www.youtube.com/watch" = PyResult.exn (PyExn.keyError "v") := rfl

/-- C3: when the identifier is valid, transcripts are listed, the
English-restricted fetch raises and the default fetch succeeds, the
retriever returns the default transcript's space-joined text, and its trace
holds exactly one fallback fetch after the English attempt and no further
retries. -/
theorem retriever_english_failure_single_fallback
    (ts : TranscriptService) (url vid : String) (tl : List String) (e : PyExn)
    (segs : List TranscriptSegment)
    (h1 : get_video_id url = PyResult.ok (some vid)) (h2 : vid ≠ "")
    (h3 : ts.list_transcripts vid = PyResult.ok tl) (h4 : tl ≠ [])
    (h5 : ts.get_transcript vid (some ["en"]) = PyResult.exn e)
    (h6 : ts.get_transcript vid none = PyResult.ok segs) :
    extract_transcript_details ts url =
      (.success (joinSegmentTexts segs),
       [.listTranscripts vid, .getTranscript vid (some ["en"]),
        .getTranscript vid none]) := by
  simp [extract_transcript_details, h1, h2, h3, h4, h5, h6]

/-- C3 witness: with the stub service whose English fetch fails, the
retriever falls back once and returns "Hello world". -/
theorem retriever_english_failure_single_fallback_witness :
    extract_transcript_details fallbackStubService "https://youtu.be/abc" =
      (.success "Hello world",
       [.listTranscripts "abc", .getTranscript "abc" (some ["en"]),
        .getTranscript "abc" none]) :=
  retriever_english_failure_single_fallback fallbackStubService "https://youtu.be/abc" "abc"
    ["en"] PyExn.noTranscriptFound [⟨"Hello", 0, 0⟩, ⟨"world", 0, 0⟩]
    rfl (by decide) rfl (by decide) rfl rfl

/-- C4: a successful retrieval returns exactly the segment texts joined in
their original order by single spaces. -/
theorem retriever_joins_segment_texts_in_order
    (ts : TranscriptService) (url vid : String) (tl : List String)
    (segs : List TranscriptSegment)
    (h1 : get_video_id url = PyResult.ok (some vid)) (h2 : vid ≠ "")
    (h3 : ts.list_transcripts vid = PyResult.ok tl) (h4 : tl ≠ [])
    (h5 : ts.get_transcript vid (some ["en"]) = PyResult.ok segs) :
    (extract_transcript_details ts url).1 =
      .success (String.intercalate " " (segs.map TranscriptSegment.text)) := by
  simp [extract_transcript_details, joinSegmentTexts, h1, h2, h3, h4, h5]

/-- C4 witness: segments with texts Hello and world join to "Hello world". -/
theorem retriever_joins_segment_texts_in_order_witness :
    (extract_transcript_details englishStubService "https://youtu.be/abc").1 =
      .success "Hello world" :=
  retriever_joins_segment_texts_in_order englishStubService "https://youtu.be/abc" "abc"
    ["en"] [⟨"Hello", 0, 0⟩, ⟨"world", 0, 0⟩] rfl (by decide) rfl (by decide) rfl

/-- C5: when the transcript service reports no transcripts for a valid
identifier, the retriever fails with the no-transcripts-available
classification after exactly the one listing call, and the trigger block
issues no generation request for that run. -/
theorem no_transcripts_reported_stops_before_generation
    (ts : TranscriptService) (gs : GenService) (max_length : ℕ) (temperature : ℚ)
    (link vid : String)
    (h1 : get_video_id link = PyResult.ok (some vid)) (h2 : vid ≠ "")
    (h3 : ts.list_transcripts vid = PyResult.ok []) :
    extract_transcript_details ts link =
      (.failure .noTranscriptsAvailable, [.listTranscripts vid]) ∧
    (run_trigger_block ts gs max_length temperature link).gen_calls = [] := by
  have hext : extract_transcript_details ts link =
      (.failure .noTranscriptsAvailable, [.listTranscripts vid]) := by
    simp [extract_transcript_details, h1, h2, h3]
  refine ⟨hext, ?_⟩
  unfold run_trigger_block
  by_cases hl : link = ""
  · simp [hl]
  · simp [hl, hext]

/-- C5 witness: with the stub service reporting an empty transcript list,
the retriever fails as classified and the trigger block issues no
generation call. -/
theorem no_transcripts_reported_stops_before_generation_witness :
    extract_transcript_details emptyListStubService "https://youtu.be/abc" =
      (.failure .noTranscriptsAvailable, [.listTranscripts "abc"]) ∧
    (run_trigger_block emptyListStubService echoStubGenService 250 (3/10)
      "https://youtu.be/abc").gen_calls = [] :=
  no_transcripts_reported_stops_before_generation emptyListStubService echoStubGenService
    250 (3/10) "https://youtu.be/abc" "abc" rfl (by decide) rfl

/-- C6: the generator consumes the model-name candidates in their fixed
list order, issuing its one request with the first name the service
accepts; when every candidate is rejected it produces no output and fails
with the message carrying the last underlying error. -/
theorem generator_tries_candidates_in_order (gs : GenService) (t : String) :
    (∀ m, gs.construct_model "gemini-1.5-pro-latest" = PyResult.ok m →
       ((generate_gemini_content gs t).2).map GenCall.model = [m]) ∧
    (∀ e1 m, gs.construct_model "gemini-1.5-pro-latest" = PyResult.exn e1 →
       gs.construct_model "gemini-pro" = PyResult.ok m →
       ((generate_gemini_content gs t).2).map GenCall.model = [m]) ∧
    (∀ e1 e2 m, gs.construct_model "gemini-1.5-pro-latest" = PyResult.exn e1 →
       gs.construct_model "gemini-pro" = PyResult.exn e2 →
       gs.construct_model "models/gemini-pro" = PyResult.ok m →
       ((generate_gemini_content gs t).2).map GenCall.model = [m]) ∧
    (∀ e1 e2 e3, gs.construct_model "gemini-1.5-pro-latest" = PyResult.exn e1 →
       gs.construct_model "gemini-pro" = PyResult.exn e2 →
       gs.construct_model "models/gemini-pro" = PyResult.exn e3 →
       generate_gemini_content gs t =
         (.failure ("🚨 Generation failed: Could not load any model. Last error: " ++
            e3.str), [])) := by
  refine ⟨?_, ?_, ?_, ?_⟩
  · intro m h1
    rcases hg : gs.generate_content
        ⟨m, format_prompt t, safety_settings, generation_config⟩ with text | e <;>
      simp [generate_gemini_content, try_model_names, model_names_to_try, h1, hg]
  · intro e1 m h1 h2
    rcases hg : gs.generate_content
        ⟨m, format_prompt t, safety_settings, generation_config⟩ with text | e <;>
      simp [generate_gemini_content, try_model_names, model_names_to_try, h1, h2, hg]
  · intro e1 e2 m h1 h2 h3
    rcases hg : gs.generate_content
        ⟨m, format_prompt t, safety_settings, generation_config⟩ with text | e <;>
      simp [generate_gemini_content, try_model_names, model_names_to_try, h1, h2, h3, hg]
  · intro e1 e2 e3 h1 h2 h3
    simp [generate_gemini_content, try_model_names, model_names_to_try,
      pyStrOfOptionExn, h1, h2, h3]

/-- C6 witness: with the stub service rejecting every candidate, the
generator fails carrying the last error and issues no request. -/
theorem generator_tries_candidates_in_order_witness :
    generate_gemini_content rejectAllGenService "T" =
      (.failure
        "🚨 Generation failed: Could not load any model. Last error: model unavailable",
       []) :=
  (generator_tries_candidates_in_order rejectAllGenService "T").2.2.2
    (.generic "model unavailable") (.generic "model unavailable")
    (.generic "model unavailable") rfl rfl rfl

/-- C7: every generation request carries the hardcoded configuration —
temperature 0.3, top-p 0.95, top-k 40, 2048 max output tokens, and the four
safety categories thresholded at block-only-high — and the requests a run
issues are identical for all values of the max-length and creativity
sliders. -/
theorem generation_config_fixed_and_sliders_unused
    (ts : TranscriptService) (gs : GenService) (link : String)
    (ml ml' : ℕ) (tp tp' : ℚ) :
    (run_trigger_block ts gs ml tp link).gen_calls =
      (run_trigger_block ts gs ml' tp' link).gen_calls ∧
    ((run_trigger_block ts gs ml tp link).gen_calls.all
      (fun c => decide (c.config = ⟨3/10, 95/100, 40, 2048⟩ ∧
        c.safety = [("HARM_CATEGORY_HARASSMENT", "BLOCK_ONLY_HIGH"),
                    ("HARM_CATEGORY_HATE_SPEECH", "BLOCK_ONLY_HIGH"),
                    ("HARM_CATEGORY_SEXUALLY_EXPLICIT", "BLOCK_ONLY_HIGH"),
                    ("HARM_CATEGORY_DANGEROUS_CONTENT", "BLOCK_ONLY_HIGH")]))) = true := by
  constructor
  · rfl
  · rcases run_gen_calls_shape ts gs ml tp link with h | ⟨t, h⟩
    · rw [h]; rfl
    · rw [h]
      apply List.all_eq_true.mpr
      intro c hc
      have hfix := generate_calls_all_fixed gs t c hc
      exact decide_eq_true ⟨hfix.1, hfix.2⟩

/-- C8: whenever the trigger block displays a summary, it offers exactly two
download artifacts encoding the identical text — the txt file holding the
summary verbatim and the md file holding the level-1 heading, a blank line,
and the same summary. -/
theorem downloads_encode_identical_summary
    (ts : TranscriptService) (gs : GenService) (ml : ℕ) (tp : ℚ) (link s : String)
    (h : (run_trigger_block ts gs ml tp link).summary_shown = some s) :
    (run_trigger_block ts gs ml tp link).downloads =
      [⟨"Download as TXT", s, "youtube_summary.txt", "text/plain"⟩,
       ⟨"Download as MD", "# YouTube Summary\n\n" ++ s, "youtube_summary.md",
        "text/markdown"⟩] := by
  unfold run_trigger_block at h ⊢
  by_cases hl : link = ""
  · simp [hl] at h
  · rw [if_neg hl] at h ⊢
    cases hx : (extract_transcript_details ts link).1 with
    | failure f => simp [hx] at h
    | success t =>
      by_cases ht : t = ""
      · simp [hx, ht] at h
      · simp only [hx, if_neg ht] at h ⊢
        cases hg : (generate_gemini_content gs t).1 with
        | failure m => simp [hg] at h
        | success s' =>
          by_cases hs : s' = ""
          · simp [hg, hs] at h
          · simp only [hg, if_neg hs] at h ⊢
            obtain rfl : s' = s := by simpa using h
            rfl

/-- C8 witness: the end-to-end scenario of spec section 8 — watch URL
abc123, segments A and B, a generation stub echoing its prompt — offers the
echoed prompt verbatim as txt and the same text under the heading as md. -/
theorem downloads_encode_identical_summary_witness :
    (run_trigger_block abStubService echoStubGenService 250 (3/10)
       "https://www.youtube.com/watch?v=abc123").downloads =
      [⟨"Download as TXT", format_prompt "A B", "youtube_summary.txt", "text/plain"⟩,
       ⟨"Download as MD", "# YouTube Summary\n\n" ++ format_prompt "A B",
        "youtube_summary.md", "text/markdown"⟩] :=
  downloads_encode_identical_summary abStubService echoStubGenService 250 (3/10)
    "https://www.youtube.com/watch?v=abc123" (format_prompt "A B") rfl

/-- C9 counterexample: extraction succeeds on https://youtu.be/ with the
empty string as identifier, so a successful extraction is not always a
non-empty identifier. -/
theorem c9_counterexample_empty_identifier :
    get_video_id "https://youtu.be/" = PyResult.ok (some "") ∧
    ¬ (∀ url s, get_video_id url = PyResult.ok (some s) → s ≠ "") := by
  refine ⟨rfl, fun hall => ?_⟩
  exact hall "https://youtu.be/" "" rfl rfl

/-- C9 (amended): extraction yields at most one identifier per URL and may
yield the empty string, which the retriever rejects before any service
interaction, so every identifier the retriever passes to the transcript
service is non-empty. -/
theorem retriever_queries_only_nonempty_identifiers
    (ts : TranscriptService) (url : String) (c : ServiceCall)
    (hmem : c ∈ (extract_transcript_details ts url).2) :
    c.videoId ≠ "" := by
  unfold extract_transcript_details at hmem
  cases hgv : get_video_id url with
  | exn e => simp [hgv] at hmem
  | ok vo =>
    cases vo with
    | none => simp [hgv] at hmem
    | some vid =>
      by_cases hv : vid = ""
      · simp [hgv, hv] at hmem
      · simp only [hgv, if_neg hv] at hmem
        cases hlt : ts.list_transcripts vid with
        | exn e =>
          simp [hlt] at hmem
          subst hmem; simpa [ServiceCall.videoId] using hv
        | ok tl =>
          by_cases htl : tl = []
          · simp [hlt, htl] at hmem
            subst hmem; simpa [ServiceCall.videoId] using hv
          · simp only [hlt, if_neg htl] at hmem
            cases hen : ts.get_transcript vid (some ["en"]) with
            | ok segs =>
              simp [hen] at hmem
              rcases hmem with rfl | rfl <;> simpa [ServiceCall.videoId] using hv
            | exn e =>
              cases hde : ts.get_transcript vid none with
              | ok segs =>
                simp [hen, hde] at hmem
                rcases hmem with rfl | rfl | rfl <;> simpa [ServiceCall.videoId] using hv
              | exn e2 =>
                simp [hen, hde] at hmem
                rcases hmem with rfl | rfl | rfl <;> simpa [ServiceCall.videoId] using hv

/-- C9 witness: the listing call of a concrete run names a non-empty
identifier. -/
theorem retriever_queries_only_nonempty_identifiers_witness :
    ServiceCall.videoId (.listTranscripts "abc") ≠ "" :=
  retriever_queries_only_nonempty_identifiers englishStubService "https://youtu.be/abc"
    (.listTranscripts "abc") (by decide)

/-- C10: a falsy identifier — Python None, or the empty string such as
https://youtu.be/ yields — makes extract_transcript_details fail as
invalid-URL with no transcript and an empty service-call trace. -/
theorem falsy_identifier_rejected_without_service_call
    (ts : TranscriptService) (url : String)
    (h : get_video_id url = PyResult.ok none ∨
         get_video_id url = PyResult.ok (some "")) :
    extract_transcript_details ts url = (.failure .invalidURL, []) := by
  unfold extract_transcript_details
  rcases h with h | h <;> simp [h]

/-- C10 witness: at https://youtu.be/ (whose identifier is the empty
string) the retriever rejects without calling the service. -/
theorem falsy_identifier_rejected_without_service_call_witness :
    extract_transcript_details englishStubService "https://youtu.be/" =
      (.failure .invalidURL, []) :=
  falsy_identifier_rejected_without_service_call englishStubService "https://youtu.be/"
    (Or.inr rfl)
